import Mathlib

/-!
Verification of the Transmission MCP server (`transmission_server.py`) against
its natural-language specification.

The development shallowly embeds the two relevant pieces of the source:

* `TransmissionClient._make_request` — the session-token RPC client
  (the Request Orchestrator of the spec), modelled as a pure function from a
  configuration, the current global session id, the call parameters and a
  transport oracle to the call's outcome, the new session id and the list of
  HTTP POST requests issued;
* `handle_call_tool` — the tool dispatcher, modelled as a pure function from
  the tool name, the argument mapping and an RPC oracle to the returned list
  of `TextContent` values.

Modelling conventions:
* Python `None`-able strings become `Option String`; Python truthiness of a
  string (`if s:`) is `Option` presence together with non-emptiness.
* JSON values are the inductive `JVal`.  JSON numbers are modelled as
  integers (`Int`); the daemon's fractional fields (`percentDone`,
  `uploadRatio`, …) influence only rendered display text, which no claim
  constrains, and the float-division display helpers below compute the exact
  rational rendering, standing in for Python's float formatting.
* Exceptions become `Except String` (the carried string is Python's
  `str(e)`); the Lean `\x27` escapes render the single quotes that Python's
  `str` of a `KeyError` produces.
-/

/-- A JSON value (Python dict / list / scalar), as handled by the server.
Numbers are modelled as integers, and Python booleans are kept separate from
integers so that Python's numeric cross-type equality can be modelled where
the source relies on it. -/
inductive JVal where
  | jnull : JVal
  | jbool : Bool → JVal
  | jint : Int → JVal
  | jstr : String → JVal
  | jarr : List JVal → JVal
  | jobj : List (String × JVal) → JVal

namespace JVal

/-- Python `d.get(k)` on an object: first binding for the key, else `None`. -/
def get? : JVal → String → Option JVal
  | jobj fields, k => (fields.find? (fun p => p.1 == k)).map Prod.snd
  | _, _ => none

/-- Python `d.get(k, default)`. -/
def getD (v : JVal) (k : String) (dflt : JVal) : JVal :=
  (v.get? k).getD dflt

/-- Python truthiness of a JSON value (`if v:`). -/
def truthy : JVal → Bool
  | jnull => false
  | jbool b => b
  | jint n => n != 0
  | jstr s => !s.isEmpty
  | jarr xs => !xs.isEmpty
  | jobj fields => !fields.isEmpty

end JVal

/-- Truthiness of an optional string (`if s:` where `s` is `None` or `str`). -/
def strTruthy : Option String → Bool
  | none => false
  | some s => !s.isEmpty

/-- The start-up configuration: `TRANSMISSION_HOST`, `TRANSMISSION_PORT`,
`TRANSMISSION_USERNAME`, `TRANSMISSION_PASSWORD` read from the environment
(lines 34-37 of the source). -/
structure Config where
  host : String
  port : Nat
  username : Option String
  password : Option String
deriving Repr

/-- `TRANSMISSION_URL = f"http://{TRANSMISSION_HOST}:{TRANSMISSION_PORT}/transmission/rpc"`
(line 38 of the source). -/
def TRANSMISSION_URL (cfg : Config) : String :=
  "http://" ++ cfg.host ++ ":" ++ toString cfg.port ++ "/transmission/rpc"

/-- The headers the client sends that the protocol depends on: the constant
`Content-Type` entry and the optional `X-Transmission-Session-Id` entry of
the `headers` dict built at lines 54-60. -/
structure ReqHeaders where
  contentType : String
  sessionId : Option String
deriving DecidableEq, Repr

/-- One HTTP POST as issued by `client.post(self.url, json=payload, headers=headers)`
inside an `httpx.AsyncClient(timeout=30.0, auth=auth)` (lines 75-81, 92-96). -/
structure PostRequest where
  url : String
  payload : JVal
  headers : ReqHeaders
  auth : Option (String × String)

/-- What the transport returns for one POST: either an HTTP response
(status code, the `X-Transmission-Session-Id` response header as read by
`response.headers.get`, the body text, and the decoded JSON body), or a
raised `httpx.RequestError` with its message.  `some ""` models a header
that is present with an empty value, which `headers.get` returns as `""`. -/
structure HttpResponse where
  status : Nat
  sessionHeader : Option String
  text : String
  body : JVal

/-- Outcome of one `client.post` call: a response, or an `httpx.RequestError`. -/
inductive PostOutcome where
  | resp : HttpResponse → PostOutcome
  | raiseNet : String → PostOutcome

/-- The errors `_make_request` raises.  The source raises bare `Exception`s
whose messages distinguish the kinds (lines 101-104); the spec names them
`TransportError` / `HttpStatusError`.  The constructor `protocolError` is the
spec's `ProtocolError` ("daemon returned 409 without a refreshed token"):
it is part of the spec's error taxonomy and, as proved below, is never
produced by the code. -/
inductive RpcError where
  | networkError : String → RpcError
  | httpError : Nat → String → RpcError
  | protocolError : String → RpcError
deriving DecidableEq, Repr

/-- The message of the raised exception:
`f"Network error: {e}"` or `f"HTTP error {e.response.status_code}: {e.response.text}"`
(lines 102, 104); `protocolError` carries the spec's wording. -/
def RpcError.message : RpcError → String
  | .networkError e => "Network error: " ++ e
  | .httpError status text => "HTTP error " ++ toString status ++ ": " ++ text
  | .protocolError m => m

/-- `response.raise_for_status()` followed by `return response.json()`
(lines 98-99): a non-2xx status raises `httpx.HTTPStatusError`, which the
`except` clause converts to the `HTTP error …` exception; a 2xx status
returns the decoded body. -/
def finishResponse (r : HttpResponse) : Except RpcError JVal :=
  if 200 ≤ r.status ∧ r.status < 300 then .ok r.body
  else .error (.httpError r.status r.text)

/-- The JSON payload built at lines 62-68:
`{"method": method, "arguments": arguments or {}}`, with `"tag"` appended
only when `if tag:` holds — so a tag of `0` (falsy) is NOT appended. -/
def buildPayload (method : String) (arguments : Option (List (String × JVal)))
    (tag : Option Int) : JVal :=
  let base := [("method", JVal.jstr method),
               ("arguments", JVal.jobj (arguments.getD []))]
  match tag with
  | some t => if t ≠ 0 then JVal.jobj (base ++ [("tag", JVal.jint t)]) else JVal.jobj base
  | none => JVal.jobj base

/-- The `headers` dict built at lines 54-60: always `Content-Type:
application/json`, plus `X-Transmission-Session-Id` when the global
`transmission_session_id` is truthy (`if transmission_session_id:`). -/
def buildHeaders (sid : Option String) : ReqHeaders :=
  { contentType := "application/json"
    sessionId := if strTruthy sid then sid else none }

/-- The `auth` value built at lines 70-73: `httpx.BasicAuth(u, p)` exactly
when `if TRANSMISSION_USERNAME and TRANSMISSION_PASSWORD:` holds, i.e. both
are present and non-empty. -/
def buildAuth (cfg : Config) : Option (String × String) :=
  match cfg.username, cfg.password with
  | some u, some p => if !u.isEmpty ∧ !p.isEmpty then some (u, p) else none
  | _, _ => none

/-- The first POST of a call (lines 77-81). -/
def firstRequest (cfg : Config) (sid : Option String) (method : String)
    (arguments : Option (List (String × JVal))) (tag : Option Int) : PostRequest :=
  { url := TRANSMISSION_URL cfg
    payload := buildPayload method arguments tag
    headers := buildHeaders sid
    auth := buildAuth cfg }

/-- The retry POST of a call (lines 89-96): same client (hence same url,
payload and auth), with the `X-Transmission-Session-Id` header entry
overwritten by the refreshed token. -/
def retryRequest (cfg : Config) (method : String)
    (arguments : Option (List (String × JVal))) (tag : Option Int)
    (newSid : Option String) : PostRequest :=
  { url := TRANSMISSION_URL cfg
    payload := buildPayload method arguments tag
    headers := { contentType := "application/json", sessionId := newSid }
    auth := buildAuth cfg }

/-- The result of one `_make_request` call: the returned JSON or raised
error, the value of the global `transmission_session_id` after the call, and
the POST requests issued, in order. -/
structure CallResult where
  result : Except RpcError JVal
  sessionAfter : Option String
  posts : List PostRequest

/-- `TransmissionClient._make_request` (lines 50-104), embedded as a pure
function.  `sid` is the global `transmission_session_id` before the call and
`transport n` is the outcome of the (n+1)-th `client.post`.  The embedding
follows the source line by line: headers carry the session id only when it
is truthy (lines 59-60); auth is attached when both credentials are truthy
(lines 71-73); on a 409 whose `X-Transmission-Session-Id` response header is
truthy the global session id and the headers are updated and the POST is
retried exactly once (lines 84-96); then `raise_for_status`/`json()` run on
whichever response is current (lines 98-99), and the two `except` clauses
translate raised transport errors (lines 101-104). -/
def _make_request (cfg : Config) (sid : Option String) (method : String)
    (arguments : Option (List (String × JVal)) := none) (tag : Option Int := none)
    (transport : Nat → PostOutcome) : CallResult :=
  let req1 := firstRequest cfg sid method arguments tag
  match transport 0 with
  | .raiseNet e => { result := .error (.networkError e), sessionAfter := sid, posts := [req1] }
  | .resp r =>
    if r.status = 409 then
      if strTruthy r.sessionHeader then
        let newSid := r.sessionHeader
        let req2 := retryRequest cfg method arguments tag newSid
        match transport 1 with
        | .raiseNet e =>
          { result := .error (.networkError e), sessionAfter := newSid, posts := [req1, req2] }
        | .resp r2 =>
          { result := finishResponse r2, sessionAfter := newSid, posts := [req1, req2] }
      else
        { result := finishResponse r, sessionAfter := sid, posts := [req1] }
    else
      { result := finishResponse r, sessionAfter := sid, posts := [req1] }

/-- Whether a finished call raised the spec's `ProtocolError`. -/
def RpcError.isProtocol : RpcError → Bool
  | .protocolError _ => true
  | _ => false

/-- Whether a call raised a `ProtocolError` (as opposed to returning, or
raising a network or HTTP-status error). -/
def CallResult.raisedProtocolError (c : CallResult) : Bool :=
  match c.result with
  | .error e => e.isProtocol
  | .ok _ => false

/-- Whether `TRANSMISSION_USERNAME and TRANSMISSION_PASSWORD` holds
(line 72 of the source): both credentials present and non-empty. -/
def credentialsConfigured (cfg : Config) : Bool :=
  strTruthy cfg.username && strTruthy cfg.password

/- Concrete fixtures used by counterexamples and witnesses. -/

/-- A default configuration: `localhost:9091`, no credentials. -/
def testCfg : Config :=
  { host := "localhost", port := 9091, username := none, password := none }

/-- A typical success body `{"result": "success", "arguments": {}}`. -/
def okBody : JVal := .jobj [("result", .jstr "success"), ("arguments", .jobj [])]

/-- A 200 response with the success body. -/
def resp200 : HttpResponse :=
  { status := 200, sessionHeader := none, text := "", body := okBody }

/-- A 409 response that carries no `X-Transmission-Session-Id` header. -/
def resp409noHeader : HttpResponse :=
  { status := 409, sessionHeader := none, text := "409: Conflict", body := .jobj [] }

/-- A 409 response whose `X-Transmission-Session-Id` header is present but
has the empty string as its value. -/
def resp409emptyHeader : HttpResponse :=
  { status := 409, sessionHeader := some "", text := "409: Conflict", body := .jobj [] }

/-- A 409 response carrying the refreshed token `abc123`. -/
def resp409abc : HttpResponse :=
  { status := 409, sessionHeader := some "abc123", text := "409: Conflict", body := .jobj [] }

/-- Transport: every POST gets the 200 success response. -/
def script200 : Nat → PostOutcome := fun _ => .resp resp200

/-- Transport: first POST gets 409 with token `abc123`, second gets 200. -/
def script409then200 : Nat → PostOutcome :=
  fun n => if n = 0 then .resp resp409abc else .resp resp200

/-- Transport: both POSTs get 409 with token `abc123`. -/
def script409twice : Nat → PostOutcome := fun _ => .resp resp409abc


/-! ### Behaviour of `_make_request`, by cases on the transport -/

/-- If the first POST raises a transport error, the call raises the
`Network error` exception after exactly one POST, leaving the token alone. -/
theorem make_request_net (cfg : Config) (sid : Option String) (method : String)
    (arguments : Option (List (String × JVal))) (tag : Option Int)
    (transport : Nat → PostOutcome) (e : String)
    (h0 : transport 0 = .raiseNet e) :
    _make_request cfg sid method arguments tag transport =
      { result := .error (.networkError e), sessionAfter := sid
        posts := [firstRequest cfg sid method arguments tag] } := by
  unfold _make_request
  rw [h0]

/-- If the first response is not a 409, its status decides the outcome after
exactly one POST, and the token is left alone. -/
theorem make_request_no409 (cfg : Config) (sid : Option String) (method : String)
    (arguments : Option (List (String × JVal))) (tag : Option Int)
    (transport : Nat → PostOutcome) (r : HttpResponse)
    (h0 : transport 0 = .resp r) (hne : r.status ≠ 409) :
    _make_request cfg sid method arguments tag transport =
      { result := finishResponse r, sessionAfter := sid
        posts := [firstRequest cfg sid method arguments tag] } := by
  unfold _make_request
  rw [h0]
  simp [hne]

/-- If the first response is a 409 without a truthy session header, the call
falls through to `raise_for_status` on that 409 after exactly one POST, and
the token is left alone. -/
theorem make_request_409_noToken (cfg : Config) (sid : Option String) (method : String)
    (arguments : Option (List (String × JVal))) (tag : Option Int)
    (transport : Nat → PostOutcome) (r : HttpResponse)
    (h0 : transport 0 = .resp r) (h409 : r.status = 409)
    (ht : strTruthy r.sessionHeader = false) :
    _make_request cfg sid method arguments tag transport =
      { result := finishResponse r, sessionAfter := sid
        posts := [firstRequest cfg sid method arguments tag] } := by
  unfold _make_request
  rw [h0]
  simp [h409, ht]

/-- If the first response is a 409 with a truthy session header and the
retry POST raises a transport error, the call raises the `Network error`
exception after exactly two POSTs, with the token already updated. -/
theorem make_request_409_retry_net (cfg : Config) (sid : Option String) (method : String)
    (arguments : Option (List (String × JVal))) (tag : Option Int)
    (transport : Nat → PostOutcome) (r : HttpResponse) (e : String)
    (h0 : transport 0 = .resp r) (h409 : r.status = 409)
    (ht : strTruthy r.sessionHeader = true) (h1 : transport 1 = .raiseNet e) :
    _make_request cfg sid method arguments tag transport =
      { result := .error (.networkError e), sessionAfter := r.sessionHeader
        posts := [firstRequest cfg sid method arguments tag,
                  retryRequest cfg method arguments tag r.sessionHeader] } := by
  unfold _make_request
  rw [h0]
  simp [h409, ht, h1]

/-- If the first response is a 409 with a truthy session header and the
retry POST returns a response, that response's status decides the outcome
after exactly two POSTs, with the token updated to the refreshed value. -/
theorem make_request_409_retry_resp (cfg : Config) (sid : Option String) (method : String)
    (arguments : Option (List (String × JVal))) (tag : Option Int)
    (transport : Nat → PostOutcome) (r r2 : HttpResponse)
    (h0 : transport 0 = .resp r) (h409 : r.status = 409)
    (ht : strTruthy r.sessionHeader = true) (h1 : transport 1 = .resp r2) :
    _make_request cfg sid method arguments tag transport =
      { result := finishResponse r2, sessionAfter := r.sessionHeader
        posts := [firstRequest cfg sid method arguments tag,
                  retryRequest cfg method arguments tag r.sessionHeader] } := by
  unfold _make_request
  rw [h0]
  simp [h409, ht, h1]

/-- A string is truthy exactly when it is non-empty. -/
theorem strTruthy_some (s : String) : strTruthy (some s) = true ↔ s ≠ "" := by
  simp [strTruthy, ← String.isEmpty_iff]

/-- Every call issues the first request first, and any further request is
the retry request built from some truthy refreshed token. -/
theorem make_request_posts (cfg : Config) (sid : Option String) (method : String)
    (arguments : Option (List (String × JVal))) (tag : Option Int)
    (transport : Nat → PostOutcome) :
    (_make_request cfg sid method arguments tag transport).posts
        = [firstRequest cfg sid method arguments tag] ∨
    ∃ ns, strTruthy ns = true ∧
      (_make_request cfg sid method arguments tag transport).posts
        = [firstRequest cfg sid method arguments tag,
           retryRequest cfg method arguments tag ns] := by
  cases h0 : transport 0 with
  | raiseNet e =>
    rw [make_request_net cfg sid method arguments tag transport e h0]
    exact Or.inl rfl
  | resp r =>
    by_cases h409 : r.status = 409
    · cases ht : strTruthy r.sessionHeader with
      | false =>
        rw [make_request_409_noToken cfg sid method arguments tag transport r h0 h409 ht]
        exact Or.inl rfl
      | true =>
        refine Or.inr ⟨r.sessionHeader, ht, ?_⟩
        cases h1 : transport 1 with
        | raiseNet e =>
          rw [make_request_409_retry_net cfg sid method arguments tag transport r e h0 h409 ht h1]
        | resp r2 =>
          rw [make_request_409_retry_resp cfg sid method arguments tag transport r r2 h0 h409 ht h1]
    · rw [make_request_no409 cfg sid method arguments tag transport r h0 h409]
      exact Or.inl rfl

/-! ### Claims C1-C7: the session-token RPC client -/

/-- **C1, counterexample.** The claim says a 409 without a session-token
header fails with a `ProtocolError` ("daemon returned 409 without a
refreshed token").  On the code, such a call does fail after exactly one
POST, but with the `HTTP error 409` exception (the spec's
`HttpStatusError`), not a `ProtocolError`. -/
theorem C1_counterexample :
    (_make_request testCfg none "session-get" none none
        (fun _ => .resp resp409noHeader)).raisedProtocolError = false ∧
    (_make_request testCfg none "session-get" none none
        (fun _ => .resp resp409noHeader)).result
      = .error (.httpError 409 "409: Conflict") ∧
    (_make_request testCfg none "session-get" none none
        (fun _ => .resp resp409noHeader)).posts.length = 1 :=
  ⟨rfl, rfl, rfl⟩

/-- **C1, amended.** For every call where the first response has status 409
and carries no `X-Transmission-Session-Id` header, the call fails with the
HTTP-status error for status 409 (not with a `ProtocolError`), and no retry
request is issued. -/
theorem C1_409_without_token_fails (cfg : Config) (sid : Option String)
    (method : String) (arguments : Option (List (String × JVal))) (tag : Option Int)
    (transport : Nat → PostOutcome) (r : HttpResponse)
    (h0 : transport 0 = .resp r) (h409 : r.status = 409)
    (hnh : r.sessionHeader = none) :
    (_make_request cfg sid method arguments tag transport).result
        = .error (.httpError 409 r.text) ∧
    (_make_request cfg sid method arguments tag transport).posts.length = 1 := by
  rw [make_request_409_noToken cfg sid method arguments tag transport r h0 h409
      (by rw [hnh]; rfl)]
  refine ⟨?_, rfl⟩
  simp [finishResponse, h409]

/-- Witness for `C1_409_without_token_fails` at a concrete script. -/
theorem C1_409_without_token_fails_witness :
    (_make_request testCfg none "session-stats" none none
        (fun _ => .resp resp409noHeader)).result
      = .error (.httpError 409 resp409noHeader.text) ∧
    (_make_request testCfg none "session-stats" none none
        (fun _ => .resp resp409noHeader)).posts.length = 1 :=
  C1_409_without_token_fails testCfg none "session-stats" none none
    (fun _ => .resp resp409noHeader) resp409noHeader rfl rfl rfl

/-- **C2.** The claim (and the spec's edge case) says a caller-supplied tag
of 0 must still be serialized.  The code's `if tag:` (line 67) treats 0 as
falsy: with `tag = 0` the serialized body of the issued POST has no `"tag"`
field, exactly as when no tag is supplied, while `tag = 1` is serialized —
so falsy-but-present tags are NOT distinguished from absent ones.  This is
the code slip the claim describes. -/
theorem C2_tag_zero_dropped :
    ((_make_request testCfg none "session-get" none (some 0) script200).posts.map
        (fun p => p.payload.get? "tag")) = [none] ∧
    ((_make_request testCfg none "session-get" none (some 1) script200).posts.map
        (fun p => p.payload.get? "tag")) = [some (.jint 1)] ∧
    ((_make_request testCfg none "session-get" none none script200).posts.map
        (fun p => p.payload.get? "tag")) = [none] :=
  ⟨rfl, rfl, rfl⟩

/-- **C3, counterexample.** The claim says a first response of 409 *with a
token header* leads to exactly two POSTs.  When the header is present but
empty (`X-Transmission-Session-Id:` with value `""`), `headers.get` returns
`""`, the truthiness test `if new_session_id:` fails, and only one POST is
issued. -/
theorem C3_counterexample :
    (_make_request testCfg none "session-get" none none
        (fun _ => .resp resp409emptyHeader)).posts.length = 1 :=
  rfl

/-- **C3, amended.** A single call issues exactly one POST when the first
response status is not 409, and exactly two POSTs when the first response
is 409 with a *non-empty* token header, regardless of whether the second
attempt succeeds or fails; there is never a third POST, and a second 409
propagates as the `HTTP error 409` exception. -/
theorem C3_post_counts (cfg : Config) (sid : Option String) (method : String)
    (arguments : Option (List (String × JVal))) (tag : Option Int)
    (transport : Nat → PostOutcome) :
    (∀ r, transport 0 = .resp r → r.status ≠ 409 →
        (_make_request cfg sid method arguments tag transport).posts.length = 1) ∧
    (∀ r, transport 0 = .resp r → r.status = 409 → strTruthy r.sessionHeader = true →
        (_make_request cfg sid method arguments tag transport).posts.length = 2) ∧
    (_make_request cfg sid method arguments tag transport).posts.length ≤ 2 ∧
    (∀ r r2, transport 0 = .resp r → r.status = 409 → strTruthy r.sessionHeader = true →
        transport 1 = .resp r2 → r2.status = 409 →
        (_make_request cfg sid method arguments tag transport).result
          = .error (.httpError 409 r2.text)) := by
  refine ⟨?_, ?_, ?_, ?_⟩
  · intro r h0 hne
    rw [make_request_no409 cfg sid method arguments tag transport r h0 hne]
    rfl
  · intro r h0 h409 ht
    cases h1 : transport 1 with
    | resp r2 =>
      rw [make_request_409_retry_resp cfg sid method arguments tag transport r r2 h0 h409 ht h1]
      rfl
    | raiseNet e =>
      rw [make_request_409_retry_net cfg sid method arguments tag transport r e h0 h409 ht h1]
      rfl
  · rcases make_request_posts cfg sid method arguments tag transport with h | ⟨ns, _, h⟩ <;>
      simp [h]
  · intro r r2 h0 h409 ht h1 h409b
    rw [make_request_409_retry_resp cfg sid method arguments tag transport r r2 h0 h409 ht h1]
    simp [finishResponse, h409b]

/-- Witness for `C3_post_counts`: one POST on an immediate 200, two POSTs
when a 409 with token `abc123` is followed by a 200, and the `HTTP error
409` outcome when both responses are 409. -/
theorem C3_post_counts_witness :
    (_make_request testCfg none "torrent-get" none none script200).posts.length = 1 ∧
    (_make_request testCfg none "torrent-get" none none script409then200).posts.length = 2 ∧
    (_make_request testCfg none "torrent-get" none none script409twice).result
      = .error (.httpError 409 resp409abc.text) :=
  ⟨(C3_post_counts testCfg none "torrent-get" none none script200).1 resp200 rfl (by decide),
   (C3_post_counts testCfg none "torrent-get" none none script409then200).2.1 resp409abc rfl rfl rfl,
   (C3_post_counts testCfg none "torrent-get" none none script409twice).2.2.2 resp409abc resp409abc
     rfl rfl rfl rfl rfl⟩

/-- On the states the code can reach (no token, or a non-empty token), the
header entry built at lines 58-60 is the stored token itself. -/
theorem buildHeaders_sessionId (sid : Option String)
    (hsid : sid = none ∨ ∃ s, sid = some s ∧ s ≠ "") :
    (buildHeaders sid).sessionId = sid := by
  rcases hsid with h | ⟨s, h, hs⟩ <;> subst h
  · rfl
  · simp [buildHeaders, (strTruthy_some s).mpr hs]

/-- The serialized body always carries the `"method"` field. -/
theorem buildPayload_method (method : String)
    (arguments : Option (List (String × JVal))) (tag : Option Int) :
    (buildPayload method arguments tag).get? "method" = some (.jstr method) := by
  unfold buildPayload
  cases tag with
  | none => rfl
  | some t => by_cases h : t = 0 <;> simp [h] <;> rfl

/-- The serialized body always carries the `"arguments"` field, defaulted to
the empty mapping when the caller supplied none (`arguments or {}`). -/
theorem buildPayload_arguments (method : String)
    (arguments : Option (List (String × JVal))) (tag : Option Int) :
    (buildPayload method arguments tag).get? "arguments"
      = some (.jobj (arguments.getD [])) := by
  unfold buildPayload
  cases tag with
  | none => rfl
  | some t => by_cases h : t = 0 <;> simp [h] <;> rfl

/-- Basic auth is attached exactly when both credentials are configured
(present and non-empty), and then carries them. -/
theorem buildAuth_spec (cfg : Config) :
    (credentialsConfigured cfg = true →
        buildAuth cfg = some (cfg.username.getD "", cfg.password.getD "")) ∧
    (credentialsConfigured cfg = false → buildAuth cfg = none) := by
  obtain ⟨host, port, username, password⟩ := cfg
  cases username with
  | none => simp [buildAuth, credentialsConfigured, strTruthy]
  | some u =>
    cases password with
    | none => simp [buildAuth, credentialsConfigured, strTruthy]
    | some p =>
      by_cases hu : u.isEmpty <;> by_cases hp : p.isEmpty <;>
        simp [buildAuth, credentialsConfigured, strTruthy, hu, hp]

/-- **C4, counterexample.** The claim covers any 409 "carrying a refreshed
session-token header".  When that header is present with the empty value,
`headers.get` returns `""`, `if new_session_id:` is false, and the stored
token is NOT updated to the header value: it stays `None`. -/
theorem C4_counterexample :
    (_make_request testCfg none "torrent-get" none none
        (fun _ => .resp resp409emptyHeader)).sessionAfter = none :=
  rfl

/-- **C4, amended.** After any call whose first response is a 409 carrying
a *non-empty* refreshed session-token header, the stored session token
equals that header value; and every call made while a non-empty token `h`
is stored attaches `h` as the `X-Transmission-Session-Id` header of its
first request, whatever the method. -/
theorem C4_token_propagation (cfg : Config) (sid : Option String) (method : String)
    (arguments : Option (List (String × JVal))) (tag : Option Int)
    (transport : Nat → PostOutcome) :
    (∀ r h, transport 0 = .resp r → r.status = 409 → r.sessionHeader = some h →
        h ≠ "" →
        (_make_request cfg sid method arguments tag transport).sessionAfter = some h) ∧
    (∀ h : String, h ≠ "" →
      ∀ (method2 : String) (arguments2 : Option (List (String × JVal)))
        (tag2 : Option Int) (transport2 : Nat → PostOutcome),
        ((_make_request cfg (some h) method2 arguments2 tag2 transport2).posts.map
            (fun p => p.headers.sessionId)).head? = some (some h)) := by
  constructor
  · intro r h h0 h409 hh hne
    have ht : strTruthy r.sessionHeader = true := by
      rw [hh]; exact (strTruthy_some h).mpr hne
    cases h1 : transport 1 with
    | resp r2 =>
      rw [make_request_409_retry_resp cfg sid method arguments tag transport r r2 h0 h409 ht h1]
      exact hh
    | raiseNet e =>
      rw [make_request_409_retry_net cfg sid method arguments tag transport r e h0 h409 ht h1]
      exact hh
  · intro h hne method2 arguments2 tag2 transport2
    have hfirst : (firstRequest cfg (some h) method2 arguments2 tag2).headers.sessionId
        = some h :=
      buildHeaders_sessionId (some h) (Or.inr ⟨h, rfl, hne⟩)
    rcases make_request_posts cfg (some h) method2 arguments2 tag2 transport2 with
      hp | ⟨ns, _, hp⟩ <;> simp [hp, hfirst]

/-- Witness for `C4_token_propagation`: after a 409 with header `abc123`
followed by a 200, the stored token is `abc123`; a following call with that
stored token attaches it on its first request. -/
theorem C4_token_propagation_witness :
    (_make_request testCfg none "session-get" none none script409then200).sessionAfter
      = some "abc123" ∧
    ((_make_request testCfg (some "abc123") "torrent-get" none none script200).posts.map
        (fun p => p.headers.sessionId)).head? = some (some "abc123") :=
  ⟨(C4_token_propagation testCfg none "session-get" none none script409then200).1
      resp409abc "abc123" rfl rfl rfl (by decide),
   (C4_token_propagation testCfg none "session-get" none none script409then200).2
      "abc123" (by decide) "torrent-get" none none script200⟩

/-- **C5.** A transport-level failure on the first POST surfaces as the
`Network error` exception carrying the underlying cause, with no retry; a
transport-level failure on the retry POST likewise surfaces with no third
POST; and the network-error kind is distinct from the HTTP-status-error
kind raised for non-2xx, non-409 responses. -/
theorem C5_transport_errors (cfg : Config) (sid : Option String) (method : String)
    (arguments : Option (List (String × JVal))) (tag : Option Int)
    (transport : Nat → PostOutcome) :
    (∀ e, transport 0 = .raiseNet e →
        (_make_request cfg sid method arguments tag transport).result
            = .error (.networkError e) ∧
        (_make_request cfg sid method arguments tag transport).posts.length = 1) ∧
    (∀ r e, transport 0 = .resp r → r.status = 409 →
        strTruthy r.sessionHeader = true → transport 1 = .raiseNet e →
        (_make_request cfg sid method arguments tag transport).result
            = .error (.networkError e) ∧
        (_make_request cfg sid method arguments tag transport).posts.length = 2) ∧
    (∀ e s t, RpcError.networkError e ≠ RpcError.httpError s t) := by
  refine ⟨?_, ?_, ?_⟩
  · intro e h0
    rw [make_request_net cfg sid method arguments tag transport e h0]
    exact ⟨rfl, rfl⟩
  · intro r e h0 h409 ht h1
    rw [make_request_409_retry_net cfg sid method arguments tag transport r e h0 h409 ht h1]
    exact ⟨rfl, rfl⟩
  · intro e s t hc
    exact RpcError.noConfusion hc

/-- Witness for `C5_transport_errors` at a concrete connection-refused
script. -/
theorem C5_transport_errors_witness :
    (_make_request testCfg none "session-get" none none
        (fun _ => .raiseNet "Connection refused")).result
      = .error (.networkError "Connection refused") ∧
    (_make_request testCfg none "session-get" none none
        (fun _ => .raiseNet "Connection refused")).posts.length = 1 ∧
    RpcError.networkError "Connection refused" ≠ RpcError.httpError 500 "boom" :=
  ⟨((C5_transport_errors testCfg none "session-get" none none
      (fun _ => .raiseNet "Connection refused")).1 "Connection refused" rfl).1,
   ((C5_transport_errors testCfg none "session-get" none none
      (fun _ => .raiseNet "Connection refused")).1 "Connection refused" rfl).2,
   (C5_transport_errors testCfg none "session-get" none none
      (fun _ => .raiseNet "Connection refused")).2.2 "Connection refused" 500 "boom"⟩

/-- **C6.** Every POST that a call issues goes to
`http://{host}:{port}/transmission/rpc` with `Content-Type:
application/json`, a body whose `"method"` field is the method and whose
`"arguments"` field is the supplied mapping (defaulted to the empty mapping
when the caller supplies none), and HTTP Basic auth exactly when
credentials are configured; and on the token states the code can reach the
`X-Transmission-Session-Id` header of the first request is attached exactly
when a current token exists, carrying that token. -/
theorem C6_wire_protocol (cfg : Config) (sid : Option String) (method : String)
    (arguments : Option (List (String × JVal))) (tag : Option Int)
    (transport : Nat → PostOutcome)
    (hsid : sid = none ∨ ∃ s, sid = some s ∧ s ≠ "") :
    (∀ p ∈ (_make_request cfg sid method arguments tag transport).posts,
        p.url = "http://" ++ cfg.host ++ ":" ++ toString cfg.port ++ "/transmission/rpc" ∧
        p.headers.contentType = "application/json" ∧
        p.payload.get? "method" = some (.jstr method) ∧
        p.payload.get? "arguments" = some (.jobj (arguments.getD [])) ∧
        (credentialsConfigured cfg = true →
            p.auth = some (cfg.username.getD "", cfg.password.getD "")) ∧
        (credentialsConfigured cfg = false → p.auth = none)) ∧
    ((_make_request cfg sid method arguments tag transport).posts.map
        (fun p => p.headers.sessionId)).head? = some sid := by
  have hfirst : ∀ q : PostRequest,
      (q = firstRequest cfg sid method arguments tag ∨
       ∃ ns, q = retryRequest cfg method arguments tag ns) →
      q.url = "http://" ++ cfg.host ++ ":" ++ toString cfg.port ++ "/transmission/rpc" ∧
      q.headers.contentType = "application/json" ∧
      q.payload.get? "method" = some (.jstr method) ∧
      q.payload.get? "arguments" = some (.jobj (arguments.getD [])) ∧
      (credentialsConfigured cfg = true →
          q.auth = some (cfg.username.getD "", cfg.password.getD "")) ∧
      (credentialsConfigured cfg = false → q.auth = none) := by
    rintro q (hq | ⟨ns, hq⟩) <;> subst hq <;>
      exact ⟨rfl, rfl, buildPayload_method method arguments tag,
             buildPayload_arguments method arguments tag,
             (buildAuth_spec cfg).1, (buildAuth_spec cfg).2⟩
  rcases make_request_posts cfg sid method arguments tag transport with hp | ⟨ns, _, hp⟩
  · refine ⟨?_, ?_⟩
    · intro p hmem
      rw [hp] at hmem
      simp only [List.mem_singleton] at hmem
      exact hfirst p (Or.inl hmem)
    · rw [hp]
      simp [buildHeaders_sessionId sid hsid, firstRequest]
  · refine ⟨?_, ?_⟩
    · intro p hmem
      rw [hp] at hmem
      simp only [List.mem_cons, List.mem_singleton, List.not_mem_nil, or_false] at hmem
      rcases hmem with hmem | hmem
      · exact hfirst p (Or.inl hmem)
      · exact hfirst p (Or.inr ⟨ns, hmem⟩)
    · rw [hp]
      simp [buildHeaders_sessionId sid hsid, firstRequest]

/-- Witness for `C6_wire_protocol`, instantiated with credentials and a
stored token at a concrete 200 script. -/
theorem C6_wire_protocol_witness :
    (∀ p ∈ (_make_request
          { host := "localhost", port := 9091,
            username := some "admin", password := some "hunter2" }
          (some "tok") "torrent-get" (some [("ids", .jarr [.jint 5])]) none
          script200).posts,
        p.url = "http://" ++ "localhost" ++ ":" ++ toString 9091 ++ "/transmission/rpc" ∧
        p.headers.contentType = "application/json" ∧
        p.payload.get? "method" = some (.jstr "torrent-get") ∧
        p.payload.get? "arguments"
          = some (.jobj ((some [("ids", JVal.jarr [JVal.jint 5])]).getD [])) ∧
        (credentialsConfigured
            { host := "localhost", port := 9091,
              username := some "admin", password := some "hunter2" } = true →
            p.auth = some ((some "admin").getD "", (some "hunter2").getD "")) ∧
        (credentialsConfigured
            { host := "localhost", port := 9091,
              username := some "admin", password := some "hunter2" } = false →
            p.auth = none)) ∧
    ((_make_request
          { host := "localhost", port := 9091,
            username := some "admin", password := some "hunter2" }
          (some "tok") "torrent-get" (some [("ids", .jarr [.jint 5])]) none
          script200).posts.map (fun p => p.headers.sessionId)).head?
      = some (some "tok") :=
  C6_wire_protocol
    { host := "localhost", port := 9091,
      username := some "admin", password := some "hunter2" }
    (some "tok") "torrent-get" (some [("ids", .jarr [.jint 5])]) none script200
    (Or.inr ⟨"tok", rfl, by decide⟩)

/-- **C7.** A call never corrupts the stored session token: unless the
first response is a 409 carrying a truthy refreshed token (the internal
refresh step), the token after the call equals the token before it — in
particular on every failure path — and after a refresh it equals exactly
the token the daemon supplied. -/
theorem C7_token_not_corrupted (cfg : Config) (sid : Option String) (method : String)
    (arguments : Option (List (String × JVal))) (tag : Option Int)
    (transport : Nat → PostOutcome) :
    (∀ e, transport 0 = .raiseNet e →
        (_make_request cfg sid method arguments tag transport).sessionAfter = sid) ∧
    (∀ r, transport 0 = .resp r → r.status ≠ 409 →
        (_make_request cfg sid method arguments tag transport).sessionAfter = sid) ∧
    (∀ r, transport 0 = .resp r → r.status = 409 → strTruthy r.sessionHeader = false →
        (_make_request cfg sid method arguments tag transport).sessionAfter = sid) ∧
    (∀ r, transport 0 = .resp r → r.status = 409 → strTruthy r.sessionHeader = true →
        (_make_request cfg sid method arguments tag transport).sessionAfter
          = r.sessionHeader) := by
  refine ⟨?_, ?_, ?_, ?_⟩
  · intro e h0
    rw [make_request_net cfg sid method arguments tag transport e h0]
  · intro r h0 hne
    rw [make_request_no409 cfg sid method arguments tag transport r h0 hne]
  · intro r h0 h409 ht
    rw [make_request_409_noToken cfg sid method arguments tag transport r h0 h409 ht]
  · intro r h0 h409 ht
    cases h1 : transport 1 with
    | resp r2 =>
      rw [make_request_409_retry_resp cfg sid method arguments tag transport r r2 h0 h409 ht h1]
    | raiseNet e =>
      rw [make_request_409_retry_net cfg sid method arguments tag transport r e h0 h409 ht h1]

/-- Witness for `C7_token_not_corrupted`: a failed call (connection
refused, then an HTTP 500, then a bare 409) leaves the token `tok` intact,
and a 409 refresh stores exactly the daemon-supplied token. -/
theorem C7_token_not_corrupted_witness :
    (_make_request testCfg (some "tok") "session-get" none none
        (fun _ => .raiseNet "timeout")).sessionAfter = some "tok" ∧
    (_make_request testCfg (some "tok") "session-get" none none
        (fun _ => .resp { status := 500, sessionHeader := none, text := "oops",
                          body := .jobj [] })).sessionAfter = some "tok" ∧
    (_make_request testCfg (some "tok") "session-get" none none
        (fun _ => .resp resp409noHeader)).sessionAfter = some "tok" ∧
    (_make_request testCfg (some "tok") "session-get" none none
        script409then200).sessionAfter = resp409abc.sessionHeader :=
  ⟨(C7_token_not_corrupted testCfg (some "tok") "session-get" none none
      (fun _ => .raiseNet "timeout")).1 "timeout" rfl,
   (C7_token_not_corrupted testCfg (some "tok") "session-get" none none
      (fun _ => .resp { status := 500, sessionHeader := none, text := "oops",
                        body := .jobj [] })).2.1
      { status := 500, sessionHeader := none, text := "oops", body := .jobj [] }
      rfl (by decide),
   (C7_token_not_corrupted testCfg (some "tok") "session-get" none none
      (fun _ => .resp resp409noHeader)).2.2.1 resp409noHeader rfl rfl rfl,
   (C7_token_not_corrupted testCfg (some "tok") "session-get" none none
      script409then200).2.2.2 resp409abc rfl rfl rfl⟩

/-! ### The tool dispatcher `handle_call_tool` (lines 316-624)

The dispatcher is embedded as a pure function of the tool name, the
argument mapping (the `arguments: Dict[str, Any]` parameter) and an RPC
oracle standing for `transmission_client._make_request`, whose raised
exceptions are carried as `Except String` (the string being Python's
`str(e)`; non-essential exception messages such as `AttributeError` texts
are abbreviated, which no claim constrains). -/

/-- `types.TextContent(type="text", text=...)`. -/
structure TextContent where
  type : String
  text : String

/-- A one-element `TextContent` list, as every branch of the dispatcher
returns. -/
def textOne (s : String) : List TextContent :=
  [{ type := "text", text := s }]

/-- The behaviour of `await transmission_client._make_request(method,
arguments?)` as seen from a tool handler: the decoded JSON body, or the
raised exception's message. -/
abbrev Rpc := String → Option (List (String × JVal)) → Except String JVal

/-- `arguments.get(k)` on the tool-arguments dict. -/
def argGet (args : List (String × JVal)) (k : String) : Option JVal :=
  (args.find? (fun p => p.1 == k)).map Prod.snd

/-- `arguments[k]` on the tool-arguments dict: a missing key raises
`KeyError`, whose `str` is the quoted key. -/
def argRequired (args : List (String × JVal)) (k : String) : Except String JVal :=
  match argGet args k with
  | some v => pure v
  | none => throw ("\x27" ++ k ++ "\x27")

/-- Truthiness of an optional value (`if v:` where `v` may be `None`). -/
def optTruthy : Option JVal → Bool
  | some v => v.truthy
  | none => false

/-- `v.get(k, dflt)` on a JSON value: only dicts have `.get`. -/
def pyDictGet (v : JVal) (k : String) (dflt : JVal) : Except String JVal :=
  match v with
  | .jobj _ => pure (v.getD k dflt)
  | _ => throw "AttributeError: \x27get\x27"

/-- `v.get(k)` on a JSON value (default `None`, i.e. `jnull`). -/
def pyDictGet? (v : JVal) (k : String) : Except String JVal :=
  match v with
  | .jobj _ => pure (v.getD k .jnull)
  | _ => throw "AttributeError: \x27get\x27"

/-- `v[k]` on a JSON value: `KeyError` when the key is missing, `TypeError`
when the value is not a dict. -/
def pySubscript (v : JVal) (k : String) : Except String JVal :=
  match v with
  | .jobj _ =>
    match v.get? k with
    | some x => pure x
    | none => throw ("\x27" ++ k ++ "\x27")
  | _ => throw "TypeError: object is not subscriptable"

/-- `v[0]` on the torrents value (a list in every non-raising run). -/
def pyIndex0 : JVal → Except String JVal
  | .jarr (x :: _) => pure x
  | .jarr [] => throw "IndexError: list index out of range"
  | _ => throw "TypeError: object is not subscriptable"

/-- Iterating a JSON value in a list comprehension (a list in every
non-raising run). -/
def asIterable : JVal → Except String (List JVal)
  | .jarr xs => pure xs
  | _ => throw "TypeError: object is not iterable"

/-- Python `v == s` for a string literal `s`: true only for that string. -/
def pyEqStrV (v : JVal) (s : String) : Bool :=
  match v with
  | .jstr t => t == s
  | _ => false

/-- Python `v == m` for an integer `m`, including `bool` as `int`
(`True == 1`, `False == 0`); any other value compares unequal. -/
def pyEqInt (v : JVal) (m : Int) : Bool :=
  match v with
  | .jint n => n == m
  | .jbool b => (if b then (1 : Int) else 0) == m
  | _ => false

/-- A value entering integer arithmetic (`/`, `*`, `>`): numbers pass
through (`bool` as `int`), anything else raises `TypeError`. -/
def asNum : JVal → Except String Int
  | .jint n => pure n
  | .jbool b => pure (if b then 1 else 0)
  | _ => throw "TypeError: unsupported operand type(s)"

/-- `limit > 0` (line 504/509): integer comparison, `TypeError` otherwise. -/
def pyGtZero : JVal → Except String Bool
  | .jint n => pure (decide (0 < n))
  | .jbool b => pure b
  | _ => throw "TypeError: not supported between instances"

/-- Left-pad a digit string with zeros to the given width. -/
def padZeros (s : String) (w : Nat) : String :=
  String.mk (List.replicate (w - s.length) '0') ++ s

/-- The rendering of Python's `f"{num/den:.Nf}"` for an integer `num`
(exact rational rounding, half to even), used for the display-only byte,
rate and percentage figures. -/
def fmtFixed (num : Int) (den : Nat) (decimals : Nat) : String :=
  let p : Nat := 10 ^ decimals
  let render : Nat → String := fun q =>
    if decimals = 0 then toString (q / p)
    else toString (q / p) ++ "." ++ padZeros (toString (q % p)) decimals
  let roundHE : Nat → Nat := fun t =>
    let q0 := t / den
    let r := t % den
    if 2 * r < den then q0
    else if den < 2 * r then q0 + 1
    else if q0 % 2 = 0 then q0 else q0 + 1
  if num < 0 then "-" ++ render (roundHE ((-num).toNat * p))
  else render (roundHE (num.toNat * p))

mutual

/-- Python `repr` of a JSON value. -/
def pyRepr : JVal → String
  | .jnull => "None"
  | .jbool true => "True"
  | .jbool false => "False"
  | .jint n => toString n
  | .jstr s => "\x27" ++ s ++ "\x27"
  | .jarr xs => "[" ++ pyReprList xs ++ "]"
  | .jobj fs => "\x7b" ++ pyReprFields fs ++ "\x7d"

/-- `repr` of list elements, comma-separated. -/
def pyReprList : List JVal → String
  | [] => ""
  | [x] => pyRepr x
  | x :: xs => pyRepr x ++ ", " ++ pyReprList xs

/-- `repr` of dict entries, comma-separated. -/
def pyReprFields : List (String × JVal) → String
  | [] => ""
  | [(k, v)] => "\x27" ++ k ++ "\x27: " ++ pyRepr v
  | (k, v) :: fs => "\x27" ++ k ++ "\x27: " ++ pyRepr v ++ ", " ++ pyReprFields fs

end

/-- Python `str` of a JSON value, as interpolated by the f-strings. -/
def pyStr : JVal → String
  | .jstr s => s
  | v => pyRepr v

/-- Python's substring test `needle in hay`. -/
def pyInStr (needle hay : String) : Bool :=
  needle == "" || (hay.splitOn needle).length != 1

/-- Python's `str.lower()` (ASCII case folding, character by character;
full Unicode lowering differs only on non-ASCII letters, which no claim
exercises). -/
def pyLower (s : String) : String :=
  String.mk (s.data.map Char.toLower)

/-- A list comprehension with a possibly-raising filter, evaluated left to
right. -/
def filterE {ε α : Type} (p : α → Except ε Bool) : List α → Except ε (List α)
  | [] => pure []
  | x :: xs => do
    let b ← p x
    let rest ← filterE p xs
    if b then pure (x :: rest) else pure rest

/-- A loop building a list with a possibly-raising body, left to right. -/
def mapE {ε α β : Type} (f : α → Except ε β) : List α → Except ε (List β)
  | [] => pure []
  | x :: xs => do
    let y ← f x
    let ys ← mapE f xs
    pure (y :: ys)

/-- `status_map.get(v, "Unknown")` for the int-keyed status dict used at
lines 442-446 and 553-557 (dict lookup uses `==`/`hash`, so `True` finds
key 1 and `False` key 0). -/
def statusName (v : JVal) : String :=
  if pyEqInt v 0 then "Stopped"
  else if pyEqInt v 1 then "Check queued"
  else if pyEqInt v 2 then "Checking"
  else if pyEqInt v 3 then "Download queued"
  else if pyEqInt v 4 then "Downloading"
  else if pyEqInt v 5 then "Seed queued"
  else if pyEqInt v 6 then "Seeding"
  else "Unknown"

/-- The `add_torrent` branch (lines 320-366). -/
def toolAddTorrent (args : List (String × JVal)) (rpc : Rpc) :
    Except String (List TextContent) := do
  let url ← argRequired args "url"
  let download_dir := argGet args "download_dir"
  let paused := (argGet args "paused").getD (.jbool false)
  let urlStr ← match url with
    | .jstr s => pure s
    | _ => throw "AttributeError: startswith"
  let rpcArgs0 :=
    if urlStr.startsWith "magnet:" then [("filename", url)]
    else if urlStr.startsWith "http" then [("filename", url)]
    else [("metainfo", url)]
  let rpcArgs1 :=
    match download_dir with
    | some d => if d.truthy then rpcArgs0 ++ [("download-dir", d)] else rpcArgs0
    | none => rpcArgs0
  let rpcArgs := rpcArgs1 ++ [("paused", paused)]
  let result ← rpc "torrent-add" (some rpcArgs)
  let res ← pyDictGet? result "result"
  if pyEqStrV res "success" then
    let argumentsObj ← pyDictGet result "arguments" (.jobj [])
    let torrent_added ← pyDictGet? argumentsObj "torrent-added"
    let argumentsObj2 ← pyDictGet result "arguments" (.jobj [])
    let torrent_duplicate ← pyDictGet? argumentsObj2 "torrent-duplicate"
    if torrent_added.truthy then
      let nm ← pySubscript torrent_added "name"
      let tid ← pySubscript torrent_added "id"
      pure (textOne ("Successfully added torrent \x27" ++ pyStr nm ++ "\x27 (ID: "
        ++ pyStr tid ++ ")"))
    else if torrent_duplicate.truthy then
      let nm ← pySubscript torrent_duplicate "name"
      let tid ← pySubscript torrent_duplicate "id"
      pure (textOne ("Torrent already exists: \x27" ++ pyStr nm ++ "\x27 (ID: "
        ++ pyStr tid ++ ")"))
    else
      pure (textOne "Torrent added successfully")
  else
    let r ← pyDictGet result "result" (.jstr "Unknown error")
    pure (textOne ("Failed to add torrent: " ++ pyStr r))

/-- The `remove_torrent` branch (lines 368-389). -/
def toolRemoveTorrent (args : List (String × JVal)) (rpc : Rpc) :
    Except String (List TextContent) := do
  let torrent_id ← argRequired args "torrent_id"
  let delete_local_data := (argGet args "delete_local_data").getD (.jbool false)
  let result ← rpc "torrent-remove"
    (some [("ids", .jarr [torrent_id]), ("delete-local-data", delete_local_data)])
  let res ← pyDictGet? result "result"
  if pyEqStrV res "success" then
    let action := if delete_local_data.truthy then "removed and local data deleted"
      else "removed"
    pure (textOne ("Torrent " ++ pyStr torrent_id ++ " successfully " ++ action))
  else
    let r ← pyDictGet result "result" (.jstr "Unknown error")
    pure (textOne ("Failed to remove torrent: " ++ pyStr r))

/-- The `start_torrent` branch (lines 391-405). -/
def toolStartTorrent (args : List (String × JVal)) (rpc : Rpc) :
    Except String (List TextContent) := do
  let torrent_id ← argRequired args "torrent_id"
  let result ← rpc "torrent-start" (some [("ids", .jarr [torrent_id])])
  let res ← pyDictGet? result "result"
  if pyEqStrV res "success" then
    pure (textOne ("Torrent " ++ pyStr torrent_id ++ " started successfully"))
  else
    let r ← pyDictGet result "result" (.jstr "Unknown error")
    pure (textOne ("Failed to start torrent: " ++ pyStr r))

/-- The `stop_torrent` branch (lines 407-421). -/
def toolStopTorrent (args : List (String × JVal)) (rpc : Rpc) :
    Except String (List TextContent) := do
  let torrent_id ← argRequired args "torrent_id"
  let result ← rpc "torrent-stop" (some [("ids", .jarr [torrent_id])])
  let res ← pyDictGet? result "result"
  if pyEqStrV res "success" then
    pure (textOne ("Torrent " ++ pyStr torrent_id ++ " stopped successfully"))
  else
    let r ← pyDictGet result "result" (.jstr "Unknown error")
    pure (textOne ("Failed to stop torrent: " ++ pyStr r))

/-- The field list requested by `get_torrent_info` (lines 428-433). -/
def infoFields : List String :=
  ["id", "name", "status", "totalSize", "percentDone", "rateDownload",
   "rateUpload", "uploadRatio", "eta", "peersConnected", "downloadDir",
   "error", "errorString", "addedDate", "doneDate", "trackerStats",
   "files", "fileStats", "pieces", "pieceCount", "pieceSize"]

/-- The `get_torrent_info` branch (lines 423-474). -/
def toolGetTorrentInfo (args : List (String × JVal)) (rpc : Rpc) :
    Except String (List TextContent) := do
  let torrent_id ← argRequired args "torrent_id"
  let result ← rpc "torrent-get"
    (some [("ids", .jarr [torrent_id]), ("fields", .jarr (infoFields.map JVal.jstr))])
  let res ← pyDictGet? result "result"
  if pyEqStrV res "success" then
    let argumentsObj ← pyDictGet result "arguments" (.jobj [])
    let torrents ← pyDictGet argumentsObj "torrents" (.jarr [])
    if torrents.truthy then
      let torrent ← pyIndex0 torrents
      let statusV ← pyDictGet torrent "status" (.jint 0)
      let status := statusName statusV
      let nameV ← pyDictGet torrent "name" (.jstr "N/A")
      let idV ← pyDictGet torrent "id" (.jstr "N/A")
      let sizeN ← asNum (← pyDictGet torrent "totalSize" (.jint 0))
      let pdN ← asNum (← pyDictGet torrent "percentDone" (.jint 0))
      let rdN ← asNum (← pyDictGet torrent "rateDownload" (.jint 0))
      let ruN ← asNum (← pyDictGet torrent "rateUpload" (.jint 0))
      let urN ← asNum (← pyDictGet torrent "uploadRatio" (.jint 0))
      let etaV ← pyDictGet torrent "eta" (.jint (-1))
      let peersV ← pyDictGet torrent "peersConnected" (.jint 0)
      let dirV ← pyDictGet torrent "downloadDir" (.jstr "N/A")
      let info :=
        "Torrent Information:\n" ++
        "Name: " ++ pyStr nameV ++ "\n" ++
        "ID: " ++ pyStr idV ++ "\n" ++
        "Status: " ++ status ++ "\n" ++
        "Size: " ++ fmtFixed sizeN (1024 * 1024) 2 ++ " MB\n" ++
        "Progress: " ++ fmtFixed (pdN * 100) 1 1 ++ "%\n" ++
        "Download Rate: " ++ fmtFixed rdN 1024 1 ++ " KB/s\n" ++
        "Upload Rate: " ++ fmtFixed ruN 1024 1 ++ " KB/s\n" ++
        "Ratio: " ++ fmtFixed urN 1 2 ++ "\n" ++
        "ETA: " ++ (if pyEqInt etaV (-1) then "Unknown" else pyStr etaV) ++ " seconds\n" ++
        "Peers: " ++ pyStr peersV ++ "\n" ++
        "Download Dir: " ++ pyStr dirV ++ "\n"
      let errV ← pyDictGet? torrent "error"
      if errV.truthy then
        let esV ← pyDictGet torrent "errorString" (.jstr "N/A")
        pure (textOne (info ++ "Error: " ++ pyStr esV ++ "\n"))
      else
        pure (textOne info)
    else
      pure (textOne ("Torrent " ++ pyStr torrent_id ++ " not found"))
  else
    let r ← pyDictGet result "result" (.jstr "Unknown error")
    pure (textOne ("Failed to get torrent info: " ++ pyStr r))

/-- The `set_torrent_priority` branch (lines 476-497);
`priority_map = {"high": 1, "normal": 0, "low": -1}` with default 0. -/
def toolSetTorrentPriority (args : List (String × JVal)) (rpc : Rpc) :
    Except String (List TextContent) := do
  let torrent_id ← argRequired args "torrent_id"
  let priority ← argRequired args "priority"
  let priority_value : Int :=
    if pyEqStrV priority "high" then 1
    else if pyEqStrV priority "normal" then 0
    else if pyEqStrV priority "low" then -1
    else 0
  let result ← rpc "torrent-set"
    (some [("ids", .jarr [torrent_id]), ("bandwidthPriority", .jint priority_value)])
  let res ← pyDictGet? result "result"
  if pyEqStrV res "success" then
    pure (textOne ("Torrent " ++ pyStr torrent_id ++ " priority set to " ++ pyStr priority))
  else
    let r ← pyDictGet result "result" (.jstr "Unknown error")
    pure (textOne ("Failed to set priority: " ++ pyStr r))

/-- The `set_speed_limits` branch (lines 499-523). -/
def toolSetSpeedLimits (args : List (String × JVal)) (rpc : Rpc) :
    Except String (List TextContent) := do
  let rpcArgs0 : List (String × JVal) := []
  let rpcArgs1 ←
    match argGet args "download_limit" with
    | some limit => do
      let b ← pyGtZero limit
      pure (rpcArgs0 ++ [("speed-limit-down-enabled", JVal.jbool b),
                         ("speed-limit-down", limit)])
    | none => pure rpcArgs0
  let rpcArgs2 ←
    match argGet args "upload_limit" with
    | some limit => do
      let b ← pyGtZero limit
      pure (rpcArgs1 ++ [("speed-limit-up-enabled", JVal.jbool b),
                         ("speed-limit-up", limit)])
    | none => pure rpcArgs1
  let result ← rpc "session-set" (some rpcArgs2)
  let res ← pyDictGet? result "result"
  if pyEqStrV res "success" then
    pure (textOne "Speed limits updated successfully")
  else
    let r ← pyDictGet result "result" (.jstr "Unknown error")
    pure (textOne ("Failed to set speed limits: " ++ pyStr r))

/-- The field list requested by `search_torrents` (line 530). -/
def searchFields : List String :=
  ["id", "name", "status", "totalSize", "percentDone", "rateDownload", "rateUpload"]

/-- The name filter of `search_torrents` (line 537):
`query in t.get("name", "").lower()` — the torrent name is lowercased
before the substring test (the query was lowercased at line 526). -/
def searchNameMatch (query : String) (t : JVal) : Except String Bool := do
  let nameV ← pyDictGet t "name" (.jstr "")
  match nameV with
  | .jstr s => pure (pyInStr query (pyLower s))
  | _ => throw "AttributeError: lower"

/-- The `status_map` of the status filter (lines 541-546):
`"downloading" → [4]`, `"seeding" → [6]`, `"paused" → [0]`,
`"completed" → [6]`. -/
def searchStatusMap (s : String) : Option (List Int) :=
  if s == "downloading" then some [4]
  else if s == "seeding" then some [6]
  else if s == "paused" then some [0]
  else if s == "completed" then some [6]
  else none

/-- One torrent's status test (line 548):
`t.get("status") in status_map[status_filter]` (a missing status is `None`,
which is in no list of ints). -/
def searchStatusPred (statuses : List Int) (t : JVal) : Except String Bool := do
  let v ← pyDictGet? t "status"
  pure (statuses.any (fun m => pyEqInt v m))

/-- The status filter of `search_torrents` (lines 540-548): applied only
when the filter differs from `"all"` and is a known key of the map. -/
def applyStatusFilter (status_filter : JVal) (ts : List JVal) :
    Except String (List JVal) :=
  if pyEqStrV status_filter "all" then pure ts
  else
    match status_filter with
    | .jstr s =>
      match searchStatusMap s with
      | some statuses => filterE (searchStatusPred statuses) ts
      | none => pure ts
    | _ => pure ts

/-- One line of the search results (lines 553-560). -/
def searchLine (t : JVal) : Except String String := do
  let statusV ← pyDictGet t "status" (.jint 0)
  let status := statusName statusV
  let idV ← pyDictGet? t "id"
  let nameV ← pyDictGet? t "name"
  let pdN ← asNum (← pyDictGet t "percentDone" (.jint 0))
  pure ("ID: " ++ pyStr idV ++ " | " ++ pyStr nameV ++ " | Status: " ++ status ++
    " | Progress: " ++ fmtFixed (pdN * 100) 1 1 ++ "%")

/-- The `search_torrents` branch after the query has been lowercased
(lines 529-575). -/
def searchRest (query : String) (status_filter : JVal) (rpc : Rpc) :
    Except String (List TextContent) := do
  let result ← rpc "torrent-get" (some [("fields", .jarr (searchFields.map JVal.jstr))])
  let res ← pyDictGet? result "result"
  if pyEqStrV res "success" then
    let argumentsObj ← pyDictGet result "arguments" (.jobj [])
    let torrents ← pyDictGet argumentsObj "torrents" (.jarr [])
    let tlist ← asIterable torrents
    let matching_torrents ← filterE (searchNameMatch query) tlist
    let matching_torrents2 ← applyStatusFilter status_filter matching_torrents
    if !matching_torrents2.isEmpty then
      let results ← mapE searchLine matching_torrents2
      pure (textOne ("Found " ++ toString matching_torrents2.length ++
        " matching torrents:\n" ++ String.intercalate "\n" results))
    else
      pure (textOne "No torrents found matching the search criteria")
  else
    let r ← pyDictGet result "result" (.jstr "Unknown error")
    pure (textOne ("Failed to search torrents: " ++ pyStr r))

/-- The `search_torrents` branch (lines 525-575): the query is taken from
`arguments["query"]` and lowercased (`.lower()`), the status filter
defaults to `"all"`. -/
def toolSearchTorrents (args : List (String × JVal)) (rpc : Rpc) :
    Except String (List TextContent) := do
  let q ← argRequired args "query"
  let query ← match q with
    | .jstr s => pure (pyLower s)
    | _ => throw "AttributeError: lower"
  let status_filter := (argGet args "status_filter").getD (.jstr "all")
  searchRest query status_filter rpc

/-- The `get_session_stats` branch (lines 577-611). -/
def toolGetSessionStats (rpc : Rpc) : Except String (List TextContent) := do
  let result ← rpc "session-stats" none
  let res ← pyDictGet? result "result"
  if pyEqStrV res "success" then
    let stats ← pyDictGet result "arguments" (.jobj [])
    let current ← pyDictGet stats "current-stats" (.jobj [])
    let cumulative ← pyDictGet stats "cumulative-stats" (.jobj [])
    let dsN ← asNum (← pyDictGet current "downloadSpeed" (.jint 0))
    let usN ← asNum (← pyDictGet current "uploadSpeed" (.jint 0))
    let dbN ← asNum (← pyDictGet current "downloadedBytes" (.jint 0))
    let ubN ← asNum (← pyDictGet current "uploadedBytes" (.jint 0))
    let faV ← pyDictGet current "filesAdded" (.jint 0)
    let atV ← pyDictGet stats "activeTorrentCount" (.jint 0)
    let ptV ← pyDictGet stats "pausedTorrentCount" (.jint 0)
    let tcV ← pyDictGet stats "torrentCount" (.jint 0)
    let cdbN ← asNum (← pyDictGet cumulative "downloadedBytes" (.jint 0))
    let cubN ← asNum (← pyDictGet cumulative "uploadedBytes" (.jint 0))
    let cfaV ← pyDictGet cumulative "filesAdded" (.jint 0)
    let scV ← pyDictGet cumulative "sessionCount" (.jint 0)
    let saN ← asNum (← pyDictGet cumulative "secondsActive" (.jint 0))
    let stats_text :=
      "Transmission Session Statistics:\n\n" ++
      "Current Session:\n" ++
      "- Download Speed: " ++ fmtFixed dsN 1024 1 ++ " KB/s\n" ++
      "- Upload Speed: " ++ fmtFixed usN 1024 1 ++ " KB/s\n" ++
      "- Downloaded: " ++ fmtFixed dbN (1024 * 1024) 2 ++ " MB\n" ++
      "- Uploaded: " ++ fmtFixed ubN (1024 * 1024) 2 ++ " MB\n" ++
      "- Files Added: " ++ pyStr faV ++ "\n" ++
      "- Active Torrents: " ++ pyStr atV ++ "\n" ++
      "- Paused Torrents: " ++ pyStr ptV ++ "\n" ++
      "- Total Torrents: " ++ pyStr tcV ++ "\n\n" ++
      "Cumulative:\n" ++
      "- Downloaded: " ++ fmtFixed cdbN (1024 * 1024 * 1024) 2 ++ " GB\n" ++
      "- Uploaded: " ++ fmtFixed cubN (1024 * 1024 * 1024) 2 ++ " GB\n" ++
      "- Files Added: " ++ pyStr cfaV ++ "\n" ++
      "- Sessions: " ++ pyStr scV ++ "\n" ++
      "- Uptime: " ++ fmtFixed saN 3600 1 ++ " hours\n"
    pure (textOne stats_text)
  else
    let r ← pyDictGet result "result" (.jstr "Unknown error")
    pure (textOne ("Failed to get session stats: " ++ pyStr r))

/-- The body of the `try:` block of `handle_call_tool` (lines 319-617):
dispatch on the tool name, with the final `else` returning the
`Unknown tool` message. -/
def callToolBody (name : String) (args : List (String × JVal)) (rpc : Rpc) :
    Except String (List TextContent) :=
  if name == "add_torrent" then toolAddTorrent args rpc
  else if name == "remove_torrent" then toolRemoveTorrent args rpc
  else if name == "start_torrent" then toolStartTorrent args rpc
  else if name == "stop_torrent" then toolStopTorrent args rpc
  else if name == "get_torrent_info" then toolGetTorrentInfo args rpc
  else if name == "set_torrent_priority" then toolSetTorrentPriority args rpc
  else if name == "set_speed_limits" then toolSetSpeedLimits args rpc
  else if name == "search_torrents" then toolSearchTorrents args rpc
  else if name == "get_session_stats" then toolGetSessionStats rpc
  else pure (textOne ("Unknown tool: " ++ name))

/-- The `except Exception as e:` wrapper (lines 619-624): any raised
exception becomes the `Error executing {name}: {e}` message. -/
def excToText (name : String) (r : Except String (List TextContent)) :
    List TextContent :=
  match r with
  | .ok l => l
  | .error e => textOne ("Error executing " ++ name ++ ": " ++ e)

/-- `handle_call_tool` (lines 316-624), embedded as a pure function of the
tool name, the argument mapping and the RPC oracle. -/
def handle_call_tool (name : String) (args : List (String × JVal)) (rpc : Rpc) :
    List TextContent :=
  excToText name (callToolBody name args rpc)

/-! ### Claims C8-C10: the tool dispatcher -/

/-- Every successful result of a dispatcher branch is a single text
content: the invariant behind C8. -/
def OkText (r : Except String (List TextContent)) : Prop :=
  ∀ l, r = .ok l → ∃ s, l = [{ type := "text", text := s }]

/-- A branch returning one text content satisfies the invariant. -/
theorem okText_pure (s : String) : OkText (pure (textOne s)) := by
  intro l hl
  refine ⟨s, ?_⟩
  cases hl
  rfl

/-- Sequencing preserves the invariant of the final step. -/
theorem okText_bind {α : Type} (x : Except String α)
    (f : α → Except String (List TextContent))
    (hf : ∀ a, OkText (f a)) : OkText (x >>= f) := by
  intro l hl
  cases x with
  | error e => exact Except.noConfusion hl
  | ok a => exact hf a l hl

/-- Branching preserves the invariant. -/
theorem okText_ite {c : Prop} [Decidable c] (x y : Except String (List TextContent))
    (hx : OkText x) (hy : OkText y) : OkText (if c then x else y) := by
  by_cases h : c <;> simp [h] <;> assumption

/-- `add_torrent` returns a single text content on every success path. -/
theorem toolAddTorrent_okText (args : List (String × JVal)) (rpc : Rpc) :
    OkText (toolAddTorrent args rpc) := by
  unfold toolAddTorrent
  repeat'
    first
    | exact okText_pure _
    | (apply okText_bind; intro _)
    | apply okText_ite
    | split
    | dsimp only

/-- `remove_torrent` returns a single text content on every success path. -/
theorem toolRemoveTorrent_okText (args : List (String × JVal)) (rpc : Rpc) :
    OkText (toolRemoveTorrent args rpc) := by
  unfold toolRemoveTorrent
  repeat'
    first
    | exact okText_pure _
    | (apply okText_bind; intro _)
    | apply okText_ite
    | split
    | dsimp only

/-- `start_torrent` returns a single text content on every success path. -/
theorem toolStartTorrent_okText (args : List (String × JVal)) (rpc : Rpc) :
    OkText (toolStartTorrent args rpc) := by
  unfold toolStartTorrent
  repeat'
    first
    | exact okText_pure _
    | (apply okText_bind; intro _)
    | apply okText_ite
    | split
    | dsimp only

/-- `stop_torrent` returns a single text content on every success path. -/
theorem toolStopTorrent_okText (args : List (String × JVal)) (rpc : Rpc) :
    OkText (toolStopTorrent args rpc) := by
  unfold toolStopTorrent
  repeat'
    first
    | exact okText_pure _
    | (apply okText_bind; intro _)
    | apply okText_ite
    | split
    | dsimp only

/-- `get_torrent_info` returns a single text content on every success path. -/
theorem toolGetTorrentInfo_okText (args : List (String × JVal)) (rpc : Rpc) :
    OkText (toolGetTorrentInfo args rpc) := by
  unfold toolGetTorrentInfo
  repeat'
    first
    | exact okText_pure _
    | (apply okText_bind; intro _)
    | apply okText_ite
    | split
    | dsimp only

/-- `set_torrent_priority` returns a single text content on every success path. -/
theorem toolSetTorrentPriority_okText (args : List (String × JVal)) (rpc : Rpc) :
    OkText (toolSetTorrentPriority args rpc) := by
  unfold toolSetTorrentPriority
  repeat'
    first
    | exact okText_pure _
    | (apply okText_bind; intro _)
    | apply okText_ite
    | split
    | dsimp only

/-- `set_speed_limits` returns a single text content on every success path. -/
theorem toolSetSpeedLimits_okText (args : List (String × JVal)) (rpc : Rpc) :
    OkText (toolSetSpeedLimits args rpc) := by
  unfold toolSetSpeedLimits
  repeat'
    first
    | exact okText_pure _
    | (apply okText_bind; intro _)
    | apply okText_ite
    | split
    | dsimp only

/-- The search body returns a single text content on every success path. -/
theorem searchRest_okText (query : String) (status_filter : JVal) (rpc : Rpc) :
    OkText (searchRest query status_filter rpc) := by
  unfold searchRest
  repeat'
    first
    | exact okText_pure _
    | (apply okText_bind; intro _)
    | apply okText_ite
    | split
    | dsimp only

/-- `search_torrents` returns a single text content on every success path. -/
theorem toolSearchTorrents_okText (args : List (String × JVal)) (rpc : Rpc) :
    OkText (toolSearchTorrents args rpc) := by
  unfold toolSearchTorrents
  repeat'
    first
    | exact searchRest_okText _ _ _
    | (apply okText_bind; intro _)
    | split
    | dsimp only

/-- `get_session_stats` returns a single text content on every success path. -/
theorem toolGetSessionStats_okText (rpc : Rpc) :
    OkText (toolGetSessionStats rpc) := by
  unfold toolGetSessionStats
  repeat'
    first
    | exact okText_pure _
    | (apply okText_bind; intro _)
    | apply okText_ite
    | split
    | dsimp only

/-- The whole dispatch body returns a single text content on every success
path, whatever the tool name. -/
theorem callToolBody_okText (name : String) (args : List (String × JVal)) (rpc : Rpc) :
    OkText (callToolBody name args rpc) := by
  unfold callToolBody
  repeat'
    first
    | exact toolAddTorrent_okText args rpc
    | exact toolRemoveTorrent_okText args rpc
    | exact toolStartTorrent_okText args rpc
    | exact toolStopTorrent_okText args rpc
    | exact toolGetTorrentInfo_okText args rpc
    | exact toolSetTorrentPriority_okText args rpc
    | exact toolSetSpeedLimits_okText args rpc
    | exact toolSearchTorrents_okText args rpc
    | exact toolGetSessionStats_okText rpc
    | exact okText_pure _
    | apply okText_ite

/-- An RPC oracle that always raises, standing for an unreachable daemon. -/
def rpcFail : Rpc := fun _ _ => .error "Network error: boom"

/-- **C8.** For every tool name, argument mapping and RPC behaviour,
`handle_call_tool` returns a one-element list of `TextContent` values (so no
exception escapes to the caller); any exception raised inside the dispatch —
missing required arguments, RPC failures, bad value types — is converted to
the `Error executing {name}: {e}` text; and an unrecognized tool name yields
the `Unknown tool` message rather than an error. -/
theorem C8_handler_total :
    (∀ (name : String) (args : List (String × JVal)) (rpc : Rpc),
        ∃ t : TextContent, handle_call_tool name args rpc = [t] ∧ t.type = "text") ∧
    (∀ (name : String) (args : List (String × JVal)) (rpc : Rpc) (e : String),
        callToolBody name args rpc = .error e →
        handle_call_tool name args rpc
          = textOne ("Error executing " ++ name ++ ": " ++ e)) ∧
    (∀ (name : String) (args : List (String × JVal)) (rpc : Rpc),
        name ∉ ["add_torrent", "remove_torrent", "start_torrent", "stop_torrent",
                "get_torrent_info", "set_torrent_priority", "set_speed_limits",
                "search_torrents", "get_session_stats"] →
        handle_call_tool name args rpc = textOne ("Unknown tool: " ++ name)) := by
  refine ⟨?_, ?_, ?_⟩
  · intro name args rpc
    unfold handle_call_tool
    cases h : callToolBody name args rpc with
    | ok l =>
      obtain ⟨s, hs⟩ := callToolBody_okText name args rpc l h
      exact ⟨{ type := "text", text := s }, hs, rfl⟩
    | error e =>
      exact ⟨{ type := "text", text := "Error executing " ++ name ++ ": " ++ e }, rfl, rfl⟩
  · intro name args rpc e h
    unfold handle_call_tool
    rw [h]
    rfl
  · intro name args rpc h
    simp only [List.mem_cons, List.not_mem_nil, or_false, not_or] at h
    obtain ⟨h1, h2, h3, h4, h5, h6, h7, h8, h9⟩ := h
    unfold handle_call_tool callToolBody
    simp [beq_iff_eq, h1, h2, h3, h4, h5, h6, h7, h8, h9]
    rfl

/-- Witness for `C8_handler_total`: a missing required argument becomes the
`Error executing …: KeyError` text, and an unknown name the `Unknown tool`
text. -/
theorem C8_handler_total_witness :
    handle_call_tool "start_torrent" [] rpcFail
      = textOne ("Error executing start_torrent: \x27torrent_id\x27") ∧
    handle_call_tool "frobnicate" [] rpcFail = textOne "Unknown tool: frobnicate" :=
  ⟨C8_handler_total.2.1 "start_torrent" [] rpcFail "\x27torrent_id\x27" rfl,
   C8_handler_total.2.2 "frobnicate" [] rpcFail (by decide)⟩

/-- **C9.** For every torrent list and query, `search_torrents` with
status filter `"completed"` selects exactly the same torrents as with
`"seeding"` — the whole handler output is identical — and both filters keep
precisely the name-matching torrents whose status field equals 6
(`status_map` maps both keys to `[6]`, and a value compares equal to 6 only
when it is the integer 6). -/
theorem C9_completed_equals_seeding :
    (∀ (rest : List (String × JVal)) (rpc : Rpc),
        handle_call_tool "search_torrents"
            (("status_filter", JVal.jstr "completed") :: rest) rpc
          = handle_call_tool "search_torrents"
            (("status_filter", JVal.jstr "seeding") :: rest) rpc) ∧
    (∀ ts : List JVal,
        applyStatusFilter (JVal.jstr "completed") ts
            = applyStatusFilter (JVal.jstr "seeding") ts ∧
        applyStatusFilter (JVal.jstr "completed") ts
            = filterE (searchStatusPred [6]) ts) ∧
    (∀ v : JVal, pyEqInt v 6 = true ↔ v = JVal.jint 6) := by
  refine ⟨?_, ?_, ?_⟩
  · intro rest rpc
    rfl
  · intro ts
    exact ⟨rfl, rfl⟩
  · intro v
    cases v with
    | jbool b => cases b <;> simp [pyEqInt]
    | jint n => simp [pyEqInt]
    | jnull => simp [pyEqInt]
    | jstr s => simp [pyEqInt]
    | jarr xs => simp [pyEqInt]
    | jobj fs => simp [pyEqInt]

/-- **C10.** `search_torrents` name matching is case-insensitive in the
query: the handler lowercases the query (line 526) and each torrent name
(line 537) before the substring test, so two queries with the same
lowercasing produce the same matching set and the same handler output. -/
theorem C10_search_case_insensitive (q q' : String) (h : pyLower q = pyLower q') :
    (∀ ts : List JVal,
        filterE (searchNameMatch (pyLower q)) ts
          = filterE (searchNameMatch (pyLower q')) ts) ∧
    (∀ (rest : List (String × JVal)) (rpc : Rpc),
        handle_call_tool "search_torrents" (("query", JVal.jstr q) :: rest) rpc
          = handle_call_tool "search_torrents" (("query", JVal.jstr q') :: rest) rpc) := by
  constructor
  · intro ts; rw [h]
  · intro rest rpc
    show excToText "search_torrents"
        (searchRest (pyLower q)
          (((rest.find? (fun p => p.1 == "status_filter")).map Prod.snd).getD
            (JVal.jstr "all"))
          rpc)
      = excToText "search_torrents"
        (searchRest (pyLower q')
          (((rest.find? (fun p => p.1 == "status_filter")).map Prod.snd).getD
            (JVal.jstr "all"))
          rpc)
    rw [h]

/-- Witness for `C10_search_case_insensitive` at the case variants
`MyShow` / `myshow` of one query. -/
theorem C10_search_case_insensitive_witness :
    (filterE (searchNameMatch (pyLower "MyShow"))
        [JVal.jobj [("name", JVal.jstr "MyShow.S01")]]
      = filterE (searchNameMatch (pyLower "myshow"))
        [JVal.jobj [("name", JVal.jstr "MyShow.S01")]]) ∧
    handle_call_tool "search_torrents" [("query", JVal.jstr "MyShow")] rpcFail
      = handle_call_tool "search_torrents" [("query", JVal.jstr "myshow")] rpcFail :=
  ⟨(C10_search_case_insensitive "MyShow" "myshow" (by decide)).1
      [JVal.jobj [("name", JVal.jstr "MyShow.S01")]],
   (C10_search_case_insensitive "MyShow" "myshow" (by decide)).2 [] rpcFail⟩
